import Mathlib

/-!
Shallow embedding of `src/database.py` (connection registry, driver fallback
chain, query/update facade) of the mcp-server-access-mdb repository, and
proofs about it.

Python strings are embedded as `String` / `List Char`; Python exceptions as
an explicit error type threaded through `Except`; the process-wide
`ctx.fastmcp.connections` dict as an association list passed in and returned;
the external drivers (SQLAlchemy ACE/sqlite engines, the access-parser
library) as an environment record giving the outcome of each attempted
external call.  Machine behaviour of CPython that the code relies on
(dataclass field generation, truthiness, `hasattr`, `KeyError`) is embedded
explicitly at the call sites that exercise it, with comments citing the
source lines.
-/

namespace AccessMDB

/-! ## Python string primitives (ASCII fragment, which is all the code uses) -/

/-- The characters Python `str.strip()` removes and regex `\s` matches
(ASCII fragment): space, tab, newline, carriage return, vertical tab,
form feed. -/
def pySpaceChars : List Char := [' ', '\t', '\n', '\r', '\x0b', '\x0c']

def isPySpace (c : Char) : Bool := pySpaceChars.contains c

/-- Python `str.upper()` on ASCII text. -/
def pyUpper (l : List Char) : List Char := l.map Char.toUpper

/-- Python `str.lower()` on ASCII text. -/
def pyLower (l : List Char) : List Char := l.map Char.toLower

/-- Python `str.strip()`: drop whitespace from both ends. -/
def pyStrip (l : List Char) : List Char :=
  ((l.dropWhile isPySpace).reverse.dropWhile isPySpace).reverse

/-- `listHasPre p l`: `l` starts with `p` (Python `str.startswith`). -/
def listHasPre : List Char → List Char → Bool
  | [], _ => true
  | _ :: _, [] => false
  | a :: p, b :: l => a == b && listHasPre p l

/-- `listHasSub p l`: `p` occurs as a contiguous sublist of `l`
(Python `p in l` on strings). -/
def listHasSub (p : List Char) : List Char → Bool
  | [] => listHasPre p []
  | b :: l => listHasPre p (b :: l) || listHasSub p l

/-- Python `str.endswith(suffix)`. -/
def pyEndsWith (s suffix : String) : Bool :=
  listHasPre suffix.data.reverse s.data.reverse

/-- The backtick character (written via its code point). -/
def backtickChar : Char := Char.ofNat 96

/-! ## Values, backends, handles -/

/-- A dynamically typed scalar cell value (row records map column names to
these; `vNone` is Python `None`). -/
inductive Val
  | vNone
  | vInt (n : Int)
  | vStr (s : String)
deriving DecidableEq, Repr

/-- A row record: mapping from column name to scalar value. -/
abbrev Row := List (String × Val)

/-- An opaque SQLAlchemy engine handle (`sa.Engine`); only its identity
matters to the registry logic. -/
structure Engine where
  id : Nat
deriving DecidableEq, Repr

/-- An `AccessParser` instance: its table catalog and, per table, the
column-oriented data `parse_table` yields (one ordered sequence of values
per column). -/
structure AccessDB where
  catalog : List String
  tables : List (String × List (String × List Val))
deriving DecidableEq, Repr

/-- The `DBConnection` record of database.py lines 22-30.  In the Python
source it is a `@dataclass` whose class body declares `key`, `engine`,
`path`, `is_access97` with type annotations and `access97_db = None`
WITHOUT an annotation; we give the record all five attributes (every
instance has `access97_db` through the class attribute), while the
generated constructor accepts only the four annotated ones — see
`dbConnectionInitFields`. -/
structure DBConnection where
  key : String
  engine : Option Engine
  path : String
  is_access97 : Bool
  access97_db : Option AccessDB
deriving DecidableEq, Repr

/-- The parameter names of the dataclass-generated `DBConnection.__init__`:
exactly the annotated class variables of lines 26-29.  `access97_db`
(line 30) has no type annotation, so the dataclass machinery treats it as a
plain class attribute and it is NOT an `__init__` parameter. -/
def dbConnectionInitFields : List String := ["key", "engine", "path", "is_access97"]

/-- The keyword arguments `Connect` passes to `DBConnection(...)` at
database.py lines 174-180. -/
def connectStoreKeywords : List String :=
  ["key", "engine", "path", "is_access97", "access97_db"]

/-- CPython call semantics: the first keyword argument not among the
callee parameters, if any; such a call raises
`TypeError: __init__() got an unexpected keyword argument ...`. -/
def unexpectedKwarg (fields kwargs : List String) : Option String :=
  kwargs.find? (fun k => !(fields.contains k))

/-- The process-wide `ctx.fastmcp.connections` dict: key to `DBConnection`. -/
abbrev Registry := List (String × DBConnection)

/-! ## Errors -/

/-- Python exceptions the embedded code can raise or catch.  `fastMCP` is
`FastMCPError`; `driver` stands for exceptions escaping
SQLAlchemy/pyodbc/pandas calls; the payload is the result of `str(e)`. -/
inductive PyErr
  | fastMCP (msg : String)
  | typeError (msg : String)
  | attributeError (msg : String)
  | keyError (msg : String)
  | driver (msg : String)
deriving DecidableEq, Repr

/-- Python `str(e)` on a caught exception: the stored message in every
case (for `KeyError` the payload already holds `str` of the missing key,
as CPython prints it). -/
def pyStr : PyErr → String
  | .fastMCP m => m
  | .typeError m => m
  | .attributeError m => m
  | .keyError m => m
  | .driver m => m

/-! ## Registry helpers (database.py lines 34-52) -/

/-- `GetConnection` (lines 34-40): look up the key, raising `FastMCPError`
when absent. -/
def GetConnection (reg : Registry) (key : String) : Except PyErr DBConnection :=
  match List.lookup key reg with
  | none => .error (.fastMCP ("Not connected to the database with key \x27" ++ key
      ++ "\x27. Please use connect first."))
  | some c => .ok c

/-- `ListConnections` (lines 48-52): key and path of every entry. -/
def ListConnections (reg : Registry) : List (String × String) :=
  reg.map (fun p => (p.2.key, p.2.path))

/-! ## Connect (database.py lines 97-193) -/

/-- Which branch of the connection-URL dispatch (lines 113-128) a path
falls into. -/
inductive PathClass
  | memory
  | access
  | sqliteFile
deriving DecidableEq, Repr

/-- The extension dispatch of lines 115-128: empty path is in-memory,
`.mdb`/`.accdb` is the Access branch, `.db`/`.sqlite`/`.sqlite3` the
sqlite-file branch, anything else is unsupported (`none`). -/
def classifyPath (databasePath : String) : Option PathClass :=
  if databasePath == "" then some .memory
  else if pyEndsWith databasePath ".mdb" || pyEndsWith databasePath ".accdb" then some .access
  else if pyEndsWith databasePath ".db" || pyEndsWith databasePath ".sqlite"
      || pyEndsWith databasePath ".sqlite3" then some .sqliteFile
  else none

/-- One attempted acquisition of a backend resource during `Connect`.
(`legacyDriver` is the older-generation Access driver the specification
describes; it is listed so statements can speak about it.) -/
inductive Attempt
  | aceDriver
  | legacyDriver
  | parser
  | sqliteEngine
deriving DecidableEq, Repr

/-- Outcomes of the external calls `Connect` can make: the ACE-driver
engine creation together with its `SELECT 1` probe (lines 139-142), the
`access_parser` import and `AccessParser(path)` construction
(lines 150-151), the sqlite engine creation with its probe
(lines 167-170), and `ReadNotes` (line 185). -/
structure ConnectEnv where
  ace : Except String Engine
  parserImportOk : Bool
  parserOpen : Except String AccessDB
  sqlite : Except String Engine
  notes : Except String String
deriving Repr

/-- The substring of the ACE error message (lowercased, line 146-147) that
triggers the Access 97 parser fallback. -/
def legacyFormatNeedle : List Char :=
  "cannot open a database created with a previous version".data

def isLegacyFormatError (m : String) : Bool :=
  listHasSub legacyFormatNeedle (pyLower m.data)

/-- The body of the `try` block of lines 130-171 up to (not including) the
store: returns either the established backend
`(engine, is_access97, access97_db, message)` or the exception raised,
together with the list of resource-acquisition attempts made. -/
def connectAttempts (key : String) (env : ConnectEnv) :
    PathClass → Except PyErr (Option Engine × Bool × Option AccessDB × String) × List Attempt
  | .access =>
    match env.ace with
    | .ok e =>
        (.ok (some e, false, none,
          "Successfully connected to Access database with key \x27" ++ key
            ++ "\x27 using ACE driver."), [.aceDriver])
    | .error aceMsg =>
        if isLegacyFormatError aceMsg then
          -- lines 148-161: Access 97 fallback via access-parser
          if env.parserImportOk then
            match env.parserOpen with
            | .ok db =>
                (.ok (none, true, some db,
                  "Successfully connected to Access 97 database with key \x27" ++ key
                    ++ "\x27 using access-parser (read-only)."), [.aceDriver, .parser])
            | .error apMsg =>
                (.error (.fastMCP ("Failed to connect to Access 97 database using access-parser: "
                  ++ apMsg)), [.aceDriver, .parser])
          else
            (.error (.fastMCP ("Access 97 database detected but access-parser library is not installed. Please install it with: pip install access-parser")),
              [.aceDriver, .parser])
        else
          -- line 164: not an Access 97 error, re-raise the original error
          (.error (.driver aceMsg), [.aceDriver])
  | .memory =>
    match env.sqlite with
    | .ok e =>
        (.ok (some e, false, none,
          "Successfully connected to the database with key \x27" ++ key ++ "\x27."),
          [.sqliteEngine])
    | .error m => (.error (.driver m), [.sqliteEngine])
  | .sqliteFile =>
    match env.sqlite with
    | .ok e =>
        (.ok (some e, false, none,
          "Successfully connected to the database with key \x27" ++ key ++ "\x27."),
          [.sqliteEngine])
    | .error m => (.error (.driver m), [.sqliteEngine])

/-- Result of `Connect`: the returned message or raised error, the registry
afterwards, and which backend resources were attempted. -/
structure ConnectResult where
  result : Except PyErr String
  registry : Registry
  attempts : List Attempt
deriving Repr

/-- `Connect` (database.py lines 97-193).  Mirrors the source:
reject an existing key (lines 106-111; dataclass instances are always
truthy, so `if existing:` means `key` present); classify the path
(lines 113-128), raising the unsupported-extension error outside the
`try`; run the attempt chain; then store the handle with
`DBConnection(key=..., engine=..., path=..., is_access97=...,
access97_db=...)` (lines 173-180), whose keyword `access97_db` is not an
`__init__` parameter, so CPython raises `TypeError`; every exception
raised inside the `try` is wrapped by line 192-193 into
`FastMCPError("Error connecting to database: " + str(e))`. -/
def Connect (reg : Registry) (key databasePath : String) (readNotes : Bool)
    (env : ConnectEnv) : ConnectResult :=
  match List.lookup key reg with
  | some existing =>
      { result := .error (.fastMCP ("Database connection with key \x27" ++ key
          ++ "\x27 already exists." ++ "Existing connection: " ++ existing.path)),
        registry := reg, attempts := [] }
  | none =>
    match classifyPath databasePath with
    | none =>
        -- line 128: raised before the try block, so not wrapped
        { result := .error (.fastMCP ("Unsupported database file extension: " ++ databasePath)),
          registry := reg, attempts := [] }
    | some cls =>
      match connectAttempts key env cls with
      | (.error e, tr) =>
          { result := .error (.fastMCP ("Error connecting to database: " ++ pyStr e)),
            registry := reg, attempts := tr }
      | (.ok (eng, isA97, a97db, message), tr) =>
        -- lines 174-180: the DBConnection(...) call; access97_db is an
        -- unexpected keyword argument for the generated __init__
        match unexpectedKwarg dbConnectionInitFields connectStoreKeywords with
        | some k =>
            { result := .error (.fastMCP ("Error connecting to database: "
                ++ "__init__() got an unexpected keyword argument \x27" ++ k ++ "\x27")),
              registry := reg, attempts := tr }
        | none =>
            -- (never reached with the store call as written)
            let reg' := reg ++ [(key, ⟨key, eng, databasePath, isA97, a97db⟩)]
            let message' :=
              if readNotes then
                match env.notes with
                | .ok n => message ++ "\nNotes: " ++ n
                | .error e => message ++ "\nError reading notes: " ++ e
              else message
            { result := .ok message', registry := reg', attempts := tr }

/-! ## Disconnect (database.py lines 196-207) -/

/-- `Disconnect`: absent key raises `FastMCPError`; otherwise the code runs
`connections[key].engine.dispose()` and then `del connections[key]`.  When
the stored `engine` is `None` (the Access 97 case), `None.dispose()` raises
`AttributeError` and the `del` on the next line never executes, so the key
stays in the registry. -/
def Disconnect (reg : Registry) (key : String) : Except PyErr String × Registry :=
  match List.lookup key reg with
  | none =>
      (.error (.fastMCP ("No active database connection with key \x27" ++ key
        ++ "\x27 to disconnect.")), reg)
  | some conn =>
    match conn.engine with
    | some _ =>
        (.ok ("Disconnected from the database with key \x27" ++ key ++ "\x27."),
          reg.eraseP (fun p => p.1 == key))
    | none =>
        (.error (.attributeError "\x27NoneType\x27 object has no attribute \x27dispose\x27"),
          reg)

/-! ## Query (database.py lines 215-305) -/

/-- Characters allowed inside the extracted table name: the regex character
class of line 256 is `[^` followed by backtick, `\s`, `(`, `,`, `;` and `]` —
everything except backtick, whitespace, open parenthesis, comma and
semicolon. -/
def tableNameChar (c : Char) : Bool :=
  !(c == backtickChar || isPySpace c || c == '(' || c == ',' || c == ';')

/-- Case-insensitive match of the literal `FROM` at the head of the list
(the regex runs with `re.IGNORECASE`); yields the remainder. -/
def matchFromKeyword : List Char → Option (List Char)
  | a :: b :: c :: d :: rest =>
      if a.toLower == 'f' && b.toLower == 'r' && c.toLower == 'o' && d.toLower == 'm'
      then some rest else none
  | _ => none

/-- Drop the single optional leading backtick of the pattern. -/
def stripTick (l : List Char) : List Char :=
  if l.head? == some backtickChar then l.tail else l

/-- Attempt the regex of line 256 at one position: literal `FROM`
(case-insensitive), then `\s+` (at least one whitespace), then an optional
single backtick, then the group `[^` backtick `\s(,;]+` taken greedily
(the trailing optional backtick of the pattern constrains nothing). -/
def tryMatchFrom (l : List Char) : Option (List Char) :=
  match matchFromKeyword l with
  | none => none
  | some rest =>
    if (rest.takeWhile isPySpace).isEmpty then none
    else if ((stripTick (rest.dropWhile isPySpace)).takeWhile tableNameChar).isEmpty then none
    else some ((stripTick (rest.dropWhile isPySpace)).takeWhile tableNameChar)

/-- `re.search` semantics for the pattern of line 256: try each position
left to right, first full match wins; yields the captured table-name
token. -/
def searchFromTable : List Char → Option (List Char)
  | [] => none
  | c :: rest =>
    match tryMatchFrom (c :: rest) with
    | some tok => some tok
    | none => searchFromTable rest

/-- Lines 245-248: `sql.upper().strip().startswith("SELECT")`. -/
def startsWithSelect (sql : String) : Bool :=
  listHasPre "SELECT".data (pyStrip (pyUpper sql.data))

/-- Error message of lines 236-240 (parameterized query on Access 97). -/
def noParams97Msg : String :=
  "Access 97 databases (via access-parser) do not support parameterized queries. Please provide literal values in your SQL query instead."

/-- Error message of lines 248-252 (statement not starting with SELECT). -/
def selectOnly97Msg : String :=
  "Access 97 databases (via access-parser) only support SELECT queries. Other SQL operations are not supported for Access 97 files."

/-- Error message of lines 257-261 (table name not extractable). -/
def extractFail97Msg : String :=
  "Could not extract table name from query. For Access 97 databases, use simple SELECT queries like: SELECT * FROM TableName"

/-- Error message of lines 322-327 (update on a read-only Access 97 handle). -/
def readOnly97Msg : String :=
  "Access 97 databases (via access-parser) are read-only. UPDATE, INSERT, and DELETE operations are not supported. Only SELECT queries can be performed on Access 97 files."

/-- `Modelled from the spec:` the external access-parser library (not part
of src/): `parse_table(name)` yields the table's column-oriented data,
"one ordered sequence of values per column"; an unknown table makes the
library raise, which line 297-298 converts to a `FastMCPError`. -/
def parse_table (db : AccessDB) (name : String) :
    Except String (List (String × List Val)) :=
  match List.lookup name db.tables with
  | some cols => .ok cols
  | none => .error ("Table " ++ name ++ " not found")

/-- The result-conversion block of lines 269-295 applied to a `parse_table`
result that is a string-keyed dict of column sequences (the access-parser
shape).  Evaluated step by step as CPython does on a dict:
`hasattr(table, "columns")` is false; `hasattr(table, "__getitem__")` is
true and `len(table)` is the number of keys, so for a non-empty dict the
code evaluates `table[0]`, and an integer key is never present in a
string-keyed dict, so `KeyError: 0` is raised (line 276) before any row is
built; for an empty dict, `columns` is read from the catalog (line 279,
unused afterwards) and `for row in table` (line 283) iterates no keys, so
the result is the empty list. -/
def normalizeAccess97Table (table : List (String × List Val)) :
    Except PyErr (List Row) :=
  if 0 < table.length then .error (.keyError "0")
  else .ok []

/-- The Access 97 branch of `Query` (lines 242-298), after the
parameterized-query check: validate the SELECT shape, extract the table
name with the regex, then call `access97_db.parse_table`.  The stored
`access97_db` attribute is an `Option`: when it is `none` (Python `None`,
the class-attribute default), `None.parse_table` raises `AttributeError`,
caught by the handler of lines 297-298 like every other exception of the
`try` block. -/
def access97Query (dbOpt : Option AccessDB) (sql : String) : Except PyErr (List Row) :=
  if !startsWithSelect sql then
    .error (.fastMCP selectOnly97Msg)
  else
    match searchFromTable sql.data with
    | none =>
        .error (.fastMCP extractFail97Msg)
    | some tokChars =>
      let table_name := String.mk tokChars
      match dbOpt with
      | none =>
          .error (.fastMCP ("Error querying Access 97 database: "
            ++ "\x27NoneType\x27 object has no attribute \x27parse_table\x27"))
      | some db =>
        match parse_table db table_name with
        | .error m => .error (.fastMCP ("Error querying Access 97 database: " ++ m))
        | .ok cols =>
          match normalizeAccess97Table cols with
          | .error e => .error (.fastMCP ("Error querying Access 97 database: " ++ pyStr e))
          | .ok rows => .ok rows

/-- `Query` (lines 215-305).  `engineQuery` stands for the external
`pd.read_sql_query` over the SQLAlchemy engine (the non-Access path,
lines 303-305); a handle with `is_access97` false and `engine` `None`
would make `GetEngine(...).begin()` raise `AttributeError`. -/
def Query (reg : Registry) (key sql : String) (params : List (String × Val))
    (engineQuery : Engine → String → List (String × Val) → Except String (List Row)) :
    Except PyErr (List Row) :=
  match GetConnection reg key with
  | .error e => .error e
  | .ok conn =>
    if conn.is_access97 then
      -- lines 236-240: non-empty params dict is truthy, rejected first
      if !params.isEmpty then
        .error (.fastMCP noParams97Msg)
      else access97Query conn.access97_db sql
    else
      match conn.engine with
      | none =>
          .error (.attributeError "\x27NoneType\x27 object has no attribute \x27begin\x27")
      | some e =>
        match engineQuery e sql params with
        | .ok rows => .ok rows
        | .error m => .error (.driver m)

/-! ## Update (database.py lines 308-333) -/

/-- `Modelled from the spec:` SQLAlchemy executemany semantics (sqlalchemy
is not part of src/): `conn.execute(sa.text(sql), parameters=params)` with a
list of parameter sets "executes the statement once per entry in the
parameter-set sequence", threading the database state; the first failing
execution aborts the rest.  `σ` is the backend database state and `ex` the
effect of one execution of the (fixed) statement under one parameter set. -/
def execMany {σ : Type} (ex : σ → Row → Except String σ) : σ → List Row → Except String σ
  | st, [] => .ok st
  | st, p :: ps =>
    match ex st p with
    | .ok st' => execMany ex st' ps
    | .error m => .error m

/-- `Update` (lines 308-333).  The Access 97 read-only rejection
(lines 322-327) happens before any engine use; otherwise the statement runs
under `engine.begin()` (lines 331-333), whose transaction —
`Modelled from the spec:` SQLAlchemy `begin()` is not part of src/ —
"automatically commits if no errors occur" and rolls every execution of the
call back on failure, so on failure the returned state is the input state
unchanged. -/
def Update {σ : Type} (reg : Registry) (key : String) (params : List Row) (st : σ)
    (ex : σ → Row → Except String σ) : Except PyErr Bool × σ :=
  match GetConnection reg key with
  | .error e => (.error e, st)
  | .ok conn =>
    if conn.is_access97 then
      (.error (.fastMCP readOnly97Msg), st)
    else
      match conn.engine with
      | none => (.error (.attributeError "\x27NoneType\x27 object has no attribute \x27begin\x27"), st)
      | some _ =>
        match execMany ex st params with
        | .ok st' => (.ok true, st')
        | .error m => (.error (.driver m), st)

/-! ## Fixtures for concrete evaluations -/

/-- An environment where the ACE driver fails for a non-format reason, the
parser cannot open the file, and sqlite engines come up fine. -/
def envDriverMissing : ConnectEnv :=
  { ace := .error "IM002 data source name not found and no default driver specified"
  , parserImportOk := true
  , parserOpen := .error "not a Jet database"
  , sqlite := .ok ⟨0⟩
  , notes := .ok "" }

/-- A registry holding one SQL-engine handle under `"k"`. -/
def regOne : Registry := [("k", ⟨"k", some ⟨7⟩, "data.db", false, none⟩)]

/-! ## Claims -/

/-- Claim C1 (code bug in the source): the spec asserts the in-memory
lifecycle `Connect("k", "")` succeeds, `Query("k", "SELECT 1")` returns one
row, `Disconnect` succeeds, and a later `Query` fails `NotConnected`.  In
the code, the lifecycle never starts: `Connect("k", "")` builds the sqlite
in-memory engine and probes it, but then calls `DBConnection(...)` with the
keyword `access97_db`, which the dataclass-generated constructor does not
accept, so `Connect` raises
`Error connecting to database: __init__() got an unexpected keyword
argument ...` and stores nothing; the follow-up `Query("k", "SELECT 1")`
fails `NotConnected` immediately. -/
theorem inmemory_lifecycle_bug :
    (Connect [] "k" "" false envDriverMissing).result =
      .error (.fastMCP ("Error connecting to database: __init__() got an unexpected keyword argument \x27access97_db\x27"))
    ∧ (Connect [] "k" "" false envDriverMissing).registry = []
    ∧ Query (Connect [] "k" "" false envDriverMissing).registry "k" "SELECT 1" []
        (fun _ _ _ => .ok [[("1", .vInt 1)]]) =
      .error (.fastMCP ("Not connected to the database with key \x27k\x27. Please use connect first.")) :=
  ⟨rfl, rfl, rfl⟩

/-- Claim C2: for every key and path that pass the extension dispatch and
whose backend attempt succeeds, `Connect` nevertheless raises (the store
call passes the keyword argument `access97_db`, which the
dataclass-generated `DBConnection.__init__` — whose parameters are exactly
`dbConnectionInitFields`, since `access97_db` is declared without a type
annotation — rejects with `TypeError`), and the registry is unchanged. -/
theorem connect_never_stores (reg : Registry) (key path : String) (readN : Bool)
    (env : ConnectEnv) (cls : PathClass)
    (out : Option Engine × Bool × Option AccessDB × String) (tr : List Attempt)
    (hfree : List.lookup key reg = none)
    (hcls : classifyPath path = some cls)
    (hok : connectAttempts key env cls = (.ok out, tr)) :
    (Connect reg key path readN env).result =
      .error (.fastMCP ("Error connecting to database: __init__() got an unexpected keyword argument \x27access97_db\x27"))
    ∧ (Connect reg key path readN env).registry = reg := by
  obtain ⟨eng, isA97, a97db, message⟩ := out
  simp only [Connect, hfree, hcls, hok]
  exact ⟨rfl, rfl⟩

/-- Witness for `connect_never_stores`: the in-memory path with a healthy
sqlite engine. -/
theorem connect_never_stores_witness :
    List.lookup "k" ([] : Registry) = none
    ∧ classifyPath "" = some PathClass.memory
    ∧ connectAttempts "k" envDriverMissing .memory =
        (.ok (some ⟨0⟩, false, none,
          "Successfully connected to the database with key \x27k\x27."), [.sqliteEngine])
    ∧ (Connect [] "k" "" false envDriverMissing).registry = [] :=
  ⟨rfl, rfl, rfl,
    (connect_never_stores [] "k" "" false envDriverMissing .memory
      (some ⟨0⟩, false, none, "Successfully connected to the database with key \x27k\x27.")
      [.sqliteEngine] rfl rfl rfl).2⟩

/-- Claim C9: a second `Connect` under a key that currently maps to a
handle fails with the already-exists error before any backend resource is
attempted, and the registry — including the original handle — is
untouched. -/
theorem connect_existing_key_noop (reg : Registry) (key path : String) (readN : Bool)
    (env : ConnectEnv) (conn : DBConnection)
    (h : List.lookup key reg = some conn) :
    (Connect reg key path readN env).result =
      .error (.fastMCP ("Database connection with key \x27" ++ key
        ++ "\x27 already exists." ++ "Existing connection: " ++ conn.path))
    ∧ (Connect reg key path readN env).registry = reg
    ∧ (Connect reg key path readN env).attempts = []
    ∧ List.lookup key (Connect reg key path readN env).registry = some conn := by
  refine ⟨?_, ?_, ?_, ?_⟩ <;> simp only [Connect, h]

/-- Witness for `connect_existing_key_noop` at a one-entry registry. -/
theorem connect_existing_key_noop_witness :
    List.lookup "k" regOne = some ⟨"k", some ⟨7⟩, "data.db", false, none⟩
    ∧ (Connect regOne "k" "other.db" false envDriverMissing).registry = regOne
    ∧ (Connect regOne "k" "other.db" false envDriverMissing).attempts = [] :=
  ⟨rfl,
    (connect_existing_key_noop regOne "k" "other.db" false envDriverMissing
      ⟨"k", some ⟨7⟩, "data.db", false, none⟩ rfl).2.1,
    (connect_existing_key_noop regOne "k" "other.db" false envDriverMissing
      ⟨"k", some ⟨7⟩, "data.db", false, none⟩ rfl).2.2.1⟩

/-! ### The Access fallback chain (claims C3 and C4) -/

/-- A path ending in `.mdb` or `.accdb` is dispatched to the Access
branch. -/
theorem classifyPath_access (path : String)
    (h : pyEndsWith path ".mdb" = true ∨ pyEndsWith path ".accdb" = true) :
    classifyPath path = some .access := by
  have hne : (path == "") = false := by
    cases hb : path == ""
    · rfl
    · exfalso
      have hp : path = "" := eq_of_beq hb
      subst hp
      rcases h with h | h
      · exact absurd h (by decide)
      · exact absurd h (by decide)
  rcases h with h | h <;> simp [classifyPath, hne, h]

/-- Whatever the attempt chain does, `Connect` makes exactly the attempts
the chain makes (the only later step, the handle store, opens nothing). -/
theorem connect_attempts_eq (reg : Registry) (key path : String) (readN : Bool)
    (env : ConnectEnv) (cls : PathClass)
    (hfree : List.lookup key reg = none)
    (hcls : classifyPath path = some cls) :
    (Connect reg key path readN env).attempts = (connectAttempts key env cls).2 := by
  simp only [Connect, hfree, hcls]
  rcases h : connectAttempts key env cls with ⟨res, tr⟩
  cases res with
  | error e => rfl
  | ok out =>
    obtain ⟨eng, isA97, a97db, message⟩ := out
    rfl

/-- When the attempt chain raises, `Connect` wraps that single exception
with the prefix of line 193. -/
theorem connect_error_wrapped (reg : Registry) (key path : String) (readN : Bool)
    (env : ConnectEnv) (cls : PathClass) (er : PyErr) (tr : List Attempt)
    (hfree : List.lookup key reg = none)
    (hcls : classifyPath path = some cls)
    (h : connectAttempts key env cls = (.error er, tr)) :
    (Connect reg key path readN env).result =
      .error (.fastMCP ("Error connecting to database: " ++ pyStr er)) := by
  simp only [Connect, hfree, hcls, h]

/-- ACE success: the chain stops after the one ACE attempt. -/
theorem connectAttempts_access_ok (key : String) (env : ConnectEnv) (e : Engine)
    (hace : env.ace = .ok e) :
    connectAttempts key env .access =
      (.ok (some e, false, none,
        "Successfully connected to Access database with key \x27" ++ key
          ++ "\x27 using ACE driver."), [.aceDriver]) := by
  simp only [connectAttempts, hace]

/-- ACE failure whose message lacks the legacy-format substring: the
original driver error is re-raised after the single ACE attempt. -/
theorem connectAttempts_access_err_other (key : String) (env : ConnectEnv) (m : String)
    (hace : env.ace = .error m) (hleg : isLegacyFormatError m = false) :
    connectAttempts key env .access = (.error (.driver m), [.aceDriver]) := by
  simp [connectAttempts, hace, hleg]

/-- ACE failure whose message contains the legacy-format substring: the
parser is attempted next, whatever its outcome. -/
theorem connectAttempts_access_err_legacy_trace (key : String) (env : ConnectEnv)
    (m : String) (hace : env.ace = .error m) (hleg : isLegacyFormatError m = true) :
    (connectAttempts key env .access).2 = [.aceDriver, .parser] := by
  cases himp : env.parserImportOk
  · simp [connectAttempts, hace, hleg, himp]
  · cases hopen : env.parserOpen with
    | error am => simp [connectAttempts, hace, hleg, himp, hopen]
    | ok db => simp [connectAttempts, hace, hleg, himp, hopen]

/-- Claim C3 (counterexample): with the ACE driver failing for a
non-format reason on a `.mdb` path, the code makes exactly ONE attempt —
not the claimed three in order (modern driver, legacy driver, parser) —
and the raised message carries that single underlying reason, not a
concatenation of three. -/
theorem mdb_three_step_counterexample :
    (Connect [] "k" "legacy.mdb" false envDriverMissing).attempts = [.aceDriver]
    ∧ ([Attempt.aceDriver] ≠ [Attempt.aceDriver, Attempt.legacyDriver, Attempt.parser])
    ∧ (Connect [] "k" "legacy.mdb" false envDriverMissing).result =
        .error (.fastMCP "Error connecting to database: IM002 data source name not found and no default driver specified") :=
  ⟨rfl, by decide, rfl⟩

/-- Claim C3 (amended): for every `.mdb` path the code attempts at most
two methods, strictly in order: the ACE driver with its `SELECT 1` probe,
then — only when the ACE failure message contains (case-insensitively)
"cannot open a database created with a previous version" — the
binary-format parser.  There is no legacy-driver step, and a terminal
failure with a non-format ACE error carries exactly that one underlying
reason in the `ConnectionFailed` message. -/
theorem mdb_chain_amended (reg : Registry) (key path : String) (readN : Bool)
    (env : ConnectEnv)
    (hfree : List.lookup key reg = none)
    (hmdb : pyEndsWith path ".mdb" = true) :
    ((Connect reg key path readN env).attempts = [.aceDriver]
      ∨ (Connect reg key path readN env).attempts = [.aceDriver, .parser])
    ∧ Attempt.legacyDriver ∉ (Connect reg key path readN env).attempts
    ∧ (∀ m, env.ace = .error m → isLegacyFormatError m = false →
        (Connect reg key path readN env).attempts = [.aceDriver]
        ∧ (Connect reg key path readN env).result =
            .error (.fastMCP ("Error connecting to database: " ++ m)))
    ∧ (∀ m, env.ace = .error m → isLegacyFormatError m = true →
        (Connect reg key path readN env).attempts = [.aceDriver, .parser]) := by
  have hacc : classifyPath path = some .access := classifyPath_access path (Or.inl hmdb)
  have hTr := connect_attempts_eq reg key path readN env .access hfree hacc
  have hMain : (Connect reg key path readN env).attempts = [.aceDriver]
      ∨ (Connect reg key path readN env).attempts = [.aceDriver, .parser] := by
    rw [hTr]
    cases hace : env.ace with
    | ok e => left; rw [connectAttempts_access_ok key env e hace]
    | error m =>
      cases hleg : isLegacyFormatError m
      · left; rw [connectAttempts_access_err_other key env m hace hleg]
      · right; exact connectAttempts_access_err_legacy_trace key env m hace hleg
  refine ⟨hMain, ?_, ?_, ?_⟩
  · rcases hMain with h | h <;> rw [h] <;> decide
  · intro m hace hleg
    refine ⟨?_, ?_⟩
    · rw [hTr, connectAttempts_access_err_other key env m hace hleg]
    · exact connect_error_wrapped reg key path readN env .access (.driver m) [.aceDriver]
        hfree hacc (connectAttempts_access_err_other key env m hace hleg)
  · intro m hace hleg
    rw [hTr]
    exact connectAttempts_access_err_legacy_trace key env m hace hleg

/-- Witness for `mdb_chain_amended`. -/
theorem mdb_chain_amended_witness :
    List.lookup "k" ([] : Registry) = none
    ∧ pyEndsWith "legacy.mdb" ".mdb" = true
    ∧ ((Connect [] "k" "legacy.mdb" false envDriverMissing).attempts = [.aceDriver]
        ∨ (Connect [] "k" "legacy.mdb" false envDriverMissing).attempts
            = [.aceDriver, .parser]) :=
  ⟨rfl, rfl, (mdb_chain_amended [] "k" "legacy.mdb" false envDriverMissing rfl rfl).1⟩

/-- An environment whose ACE failure message is the legacy-format one, with
a working parser. -/
def envLegacyDetect : ConnectEnv :=
  { ace := .error "Cannot open a database created with a previous version of your application."
  , parserImportOk := true
  , parserOpen := .ok ⟨["T"], [("T", [])]⟩
  , sqlite := .ok ⟨0⟩
  , notes := .ok "" }

/-- Claim C4 (counterexample): for an `.accdb` path whose ACE failure
message contains the legacy-format substring, the code DOES go on to
attempt the binary-format parser — the modern-driver failure is not
terminal as the claim states. -/
theorem accdb_parser_fallback_counterexample :
    (Connect [] "k" "new.accdb" false envLegacyDetect).attempts = [.aceDriver, .parser]
    ∧ Attempt.parser ∈ (Connect [] "k" "new.accdb" false envLegacyDetect).attempts := by
  refine ⟨rfl, ?_⟩
  rw [show (Connect [] "k" "new.accdb" false envLegacyDetect).attempts
      = [.aceDriver, .parser] from rfl]
  decide

/-- Claim C4 (amended): for `.accdb` paths the legacy-driver step is never
attempted, and a modern-driver failure is terminal exactly when its
message lacks the legacy-format substring; when the message contains it,
the binary-format parser IS attempted — the code treats `.accdb` exactly
like `.mdb`. -/
theorem accdb_chain_amended (reg : Registry) (key path : String) (readN : Bool)
    (env : ConnectEnv)
    (hfree : List.lookup key reg = none)
    (haccdb : pyEndsWith path ".accdb" = true) :
    Attempt.legacyDriver ∉ (Connect reg key path readN env).attempts
    ∧ (∀ m, env.ace = .error m → isLegacyFormatError m = false →
        (Connect reg key path readN env).attempts = [.aceDriver]
        ∧ (Connect reg key path readN env).result =
            .error (.fastMCP ("Error connecting to database: " ++ m)))
    ∧ (∀ m, env.ace = .error m → isLegacyFormatError m = true →
        Attempt.parser ∈ (Connect reg key path readN env).attempts) := by
  have hacc : classifyPath path = some .access := classifyPath_access path (Or.inr haccdb)
  have hTr := connect_attempts_eq reg key path readN env .access hfree hacc
  have hMain : (Connect reg key path readN env).attempts = [.aceDriver]
      ∨ (Connect reg key path readN env).attempts = [.aceDriver, .parser] := by
    rw [hTr]
    cases hace : env.ace with
    | ok e => left; rw [connectAttempts_access_ok key env e hace]
    | error m =>
      cases hleg : isLegacyFormatError m
      · left; rw [connectAttempts_access_err_other key env m hace hleg]
      · right; exact connectAttempts_access_err_legacy_trace key env m hace hleg
  refine ⟨?_, ?_, ?_⟩
  · rcases hMain with h | h <;> rw [h] <;> decide
  · intro m hace hleg
    refine ⟨?_, ?_⟩
    · rw [hTr, connectAttempts_access_err_other key env m hace hleg]
    · exact connect_error_wrapped reg key path readN env .access (.driver m) [.aceDriver]
        hfree hacc (connectAttempts_access_err_other key env m hace hleg)
  · intro m hace hleg
    rw [hTr, connectAttempts_access_err_legacy_trace key env m hace hleg]
    decide

/-- Witness for `accdb_chain_amended`. -/
theorem accdb_chain_amended_witness :
    List.lookup "k" ([] : Registry) = none
    ∧ pyEndsWith "new.accdb" ".accdb" = true
    ∧ Attempt.legacyDriver ∉ (Connect [] "k" "new.accdb" false envDriverMissing).attempts :=
  ⟨rfl, rfl, (accdb_chain_amended [] "k" "new.accdb" false envDriverMissing rfl rfl).1⟩

/-- A parser-backend (Access 97) handle as `Connect` would assemble it:
`engine` is `None`, `is_access97` is set, `access97_db` holds the parser. -/
def parserHandle : DBConnection := ⟨"k", none, "legacy.mdb", true, some ⟨[], []⟩⟩

/-- Claim C10 (code bug in the source): the spec says `Disconnect` removes
the key and releases the backend for either backend kind.  For a parser
(Access 97) handle the stored `engine` is `None`, so line 205
(`connections[key].engine.dispose()`) raises `AttributeError` and the
`del` on line 206 never runs: `Disconnect` fails and the key is still in
the registry.  (For SQL-engine handles, and for absent keys, the code does
behave as claimed.) -/
theorem disconnect_parser_handle_bug :
    (Disconnect [("k", parserHandle)] "k").1 =
      .error (.attributeError "\x27NoneType\x27 object has no attribute \x27dispose\x27")
    ∧ (Disconnect [("k", parserHandle)] "k").2 = [("k", parserHandle)]
    ∧ List.lookup "k" (Disconnect [("k", parserHandle)] "k").2 = some parserHandle :=
  ⟨rfl, rfl, rfl⟩

/-! ### Access 97 result normalization (claim C5) -/

/-- The column-oriented source data of the claim:
`{"A": [1, 2], "B": [10]}`. -/
def access97SampleDB : AccessDB :=
  ⟨["A", "B"], [("T", [("A", [.vInt 1, .vInt 2]), ("B", [.vInt 10])])]⟩

/-- A parser handle over `access97SampleDB`. -/
def access97SampleConn : DBConnection := ⟨"k", none, "f.mdb", true, some access97SampleDB⟩

/-- Claim C5 (code bug in the source): the spec requires the column-oriented
parser result to be transposed into row records with null-padding — for
`{"A": [1, 2], "B": [10]}`, rows `[{A: 1, B: 10}, {A: 2, B: None}]`.  The
code never transposes: with a non-empty string-keyed column dict, line 276
evaluates `table[0]`, which raises `KeyError: 0`, and the handler of
lines 297-298 turns the whole query into
`Error querying Access 97 database: 0`. -/
theorem access97_normalization_bug :
    Query [("k", access97SampleConn)] "k" "SELECT * FROM T" [] (fun _ _ _ => .ok [])
      = .error (.fastMCP "Error querying Access 97 database: 0")
    ∧ Query [("k", access97SampleConn)] "k" "SELECT * FROM T" [] (fun _ _ _ => .ok [])
      ≠ .ok [[("A", .vInt 1), ("B", .vInt 10)], [("A", .vInt 2), ("B", .vNone)]] := by
  refine ⟨rfl, ?_⟩
  intro h
  rw [show Query [("k", access97SampleConn)] "k" "SELECT * FROM T" [] (fun _ _ _ => .ok [])
      = .error (.fastMCP "Error querying Access 97 database: 0") from rfl] at h
  cases h

/-! ### Update semantics (claims C6 and C7) -/

/-- Claim C6: for a SQL-engine handle (`is_access97` false, engine
present), `Update` executes the statement once per parameter-set entry
inside one transaction: when every execution succeeds, the resulting state
is the sequential application of all of them and the call returns `True`;
when any execution fails, the whole call fails and the state is exactly
the pre-call state (the rollback of `engine.begin()`). -/
theorem update_transactional {σ : Type} (reg : Registry) (key : String)
    (params : List Row) (st : σ) (ex : σ → Row → Except String σ)
    (conn : DBConnection) (e : Engine)
    (hconn : List.lookup key reg = some conn)
    (hrw : conn.is_access97 = false)
    (heng : conn.engine = some e) :
    (∀ st', execMany ex st params = .ok st' →
        Update reg key params st ex = (.ok true, st'))
    ∧ (∀ m, execMany ex st params = .error m →
        Update reg key params st ex = (.error (.driver m), st)) := by
  constructor
  · intro st' h
    simp [Update, GetConnection, hconn, hrw, heng, h]
  · intro m h
    simp [Update, GetConnection, hconn, hrw, heng, h]

/-- A SQL-engine handle under `"k"`. -/
def engineHandle : DBConnection := ⟨"k", some ⟨1⟩, "data.db", false, none⟩

/-- Execution semantics counting the executions performed. -/
def countExec : Nat → Row → Except String Nat := fun n _ => .ok (n + 1)

/-- Execution semantics in which the second execution violates a
constraint. -/
def failSecondExec : Nat → Row → Except String Nat :=
  fun n _ => if n == 0 then .ok 1 else .error "UNIQUE constraint failed"

/-- Witness for `update_transactional`: two successful executions advance
the state twice; a three-entry sequence whose second entry fails leaves
the state identical to before the call. -/
theorem update_transactional_witness :
    List.lookup "k" [("k", engineHandle)] = some engineHandle
    ∧ engineHandle.is_access97 = false
    ∧ engineHandle.engine = some ⟨1⟩
    ∧ Update [("k", engineHandle)] "k" [[("id", .vInt 1)], [("id", .vInt 2)]] 0 countExec
        = (.ok true, 2)
    ∧ Update [("k", engineHandle)] "k" [[("id", .vInt 1)], [("id", .vInt 2)], [("id", .vInt 3)]]
        0 failSecondExec
        = (.error (.driver "UNIQUE constraint failed"), 0) :=
  ⟨rfl, rfl, rfl,
    (update_transactional [("k", engineHandle)] "k" [[("id", .vInt 1)], [("id", .vInt 2)]] 0
      countExec engineHandle ⟨1⟩ rfl rfl rfl).1 2 rfl,
    (update_transactional [("k", engineHandle)] "k"
      [[("id", .vInt 1)], [("id", .vInt 2)], [("id", .vInt 3)]] 0
      failSecondExec engineHandle ⟨1⟩ rfl rfl rfl).2 "UNIQUE constraint failed" rfl⟩

/-- Claim C7: a parser-backend (Access 97) handle rejects `Update` with the
read-only error for every execution semantics and every state — the state
is returned unchanged, so no execution is attempted — and rejects `Query`
carrying a non-empty parameter mapping with the parameters-not-supported
error for every statement, i.e. before the statement is examined. -/
theorem parser_handle_rejects (reg : Registry) (key : String) (conn : DBConnection)
    (hconn : List.lookup key reg = some conn)
    (h97 : conn.is_access97 = true) :
    (∀ (σ : Type) (params : List Row) (st : σ) (ex : σ → Row → Except String σ),
        Update reg key params st ex = (.error (.fastMCP readOnly97Msg), st))
    ∧ (∀ (sql : String) (params : List (String × Val))
        (engq : Engine → String → List (String × Val) → Except String (List Row)),
        params ≠ [] →
        Query reg key sql params engq = .error (.fastMCP noParams97Msg)) := by
  constructor
  · intro σ params st ex
    simp [Update, GetConnection, hconn, h97]
  · intro sql params engq hne
    cases params with
    | nil => exact absurd rfl hne
    | cons p ps => simp [Query, GetConnection, hconn, h97]

/-- Witness for `parser_handle_rejects`: a one-entry registry with a parser
handle, an update with no execution effect visible, and a parameterized
query with a statement that is not even a SELECT. -/
theorem parser_handle_rejects_witness :
    List.lookup "k" [("k", parserHandle)] = some parserHandle
    ∧ parserHandle.is_access97 = true
    ∧ Update [("k", parserHandle)] "k" [[("id", .vInt 1)]] 0 countExec
        = (.error (.fastMCP readOnly97Msg), 0)
    ∧ Query [("k", parserHandle)] "k" "DROP TABLE T" [("x", .vInt 1)] (fun _ _ _ => .ok [])
        = .error (.fastMCP noParams97Msg) :=
  ⟨rfl, rfl,
    (parser_handle_rejects [("k", parserHandle)] "k" parserHandle rfl rfl).1
      Nat [[("id", .vInt 1)]] 0 countExec,
    (parser_handle_rejects [("k", parserHandle)] "k" parserHandle rfl rfl).2
      "DROP TABLE T" [("x", .vInt 1)] (fun _ _ _ => .ok []) (by decide)⟩

/-! ### Table-name extraction (claim C8) -/

/-- The token a successful single-position match captures is non-empty and
consists only of characters admitted by the class (no whitespace, comma,
open parenthesis, semicolon or backtick). -/
theorem tryMatchFrom_token (l tok : List Char) (h : tryMatchFrom l = some tok) :
    tok ≠ [] ∧ ∀ c ∈ tok, tableNameChar c = true := by
  unfold tryMatchFrom at h
  split at h
  · exact Option.noConfusion h
  · split at h
    · exact Option.noConfusion h
    · split at h
      · exact Option.noConfusion h
      · rename_i rest hw htok
        injection h with h'
        subst h'
        constructor
        · intro hnil
          exact htok (by rw [hnil]; rfl)
        · intro c hc
          exact List.mem_takeWhile_imp hc

/-- The property transfers to the leftmost-match search. -/
theorem searchFromTable_token (l tok : List Char) (h : searchFromTable l = some tok) :
    tok ≠ [] ∧ ∀ c ∈ tok, tableNameChar c = true := by
  induction l with
  | nil => exact Option.noConfusion h
  | cons c rest ih =>
    simp only [searchFromTable] at h
    cases htm : tryMatchFrom (c :: rest) with
    | some t =>
      simp only [htm] at h
      injection h with h'
      subst h'
      exact tryMatchFrom_token (c :: rest) t htm
    | none =>
      simp only [htm] at h
      exact ih h

/-- Claim C8 (counterexample): for `SELECT A FROM T) WHERE C=1` the claim
says the table name extends only up to the next parenthesis, i.e. `T`; the
regex character class of line 256 excludes only the OPEN parenthesis, so
the code extracts `T)`. -/
theorem table_token_counterexample :
    searchFromTable "SELECT A FROM T) WHERE C=1".data = some ['T', ')']
    ∧ ['T', ')'] ≠ ['T'] :=
  ⟨rfl, by decide⟩

/-- Claim C8 (amended): an Access 97 statement is accepted iff it starts
with SELECT (case-insensitively, after stripping) and the regex finds,
anywhere in the statement, FROM followed by whitespace, an optional
backtick and a non-empty token; statements failing either check are
rejected with the corresponding unsupported-query error, and a statement
passing both checks IS accepted: the query proceeds against exactly the
table named by the leftmost-match token (whatever follows the token), so
its outcome is fully determined by `parse_table` on that token — a
table-lookup failure surfaces as the wrapped querying error, an empty
column dict yields the empty row sequence, a non-empty one trips the
normalization `KeyError` of claim C5.  The extracted token never contains
whitespace, a comma, an OPEN parenthesis, a semicolon or a backtick;
closing parentheses and square brackets are ordinary token characters. -/
theorem access97_shape_amended (dbOpt : Option AccessDB) (sql : String) :
    (startsWithSelect sql = false →
        access97Query dbOpt sql = .error (.fastMCP selectOnly97Msg))
    ∧ (startsWithSelect sql = true → searchFromTable sql.data = none →
        access97Query dbOpt sql = .error (.fastMCP extractFail97Msg))
    ∧ (∀ tok, searchFromTable sql.data = some tok →
        tok ≠ [] ∧ ∀ c ∈ tok, tableNameChar c = true)
    ∧ (∀ tok (db : AccessDB), startsWithSelect sql = true →
        searchFromTable sql.data = some tok →
        (∀ m, parse_table db (String.mk tok) = .error m →
            access97Query (some db) sql
              = .error (.fastMCP ("Error querying Access 97 database: " ++ m)))
        ∧ (parse_table db (String.mk tok) = .ok [] →
            access97Query (some db) sql = .ok [])
        ∧ (∀ cols, parse_table db (String.mk tok) = .ok cols → cols ≠ [] →
            access97Query (some db) sql
              = .error (.fastMCP "Error querying Access 97 database: 0"))) := by
  refine ⟨?_, ?_, ?_, ?_⟩
  · intro h; simp [access97Query, h]
  · intro hsel hs; simp [access97Query, hsel, hs]
  · intro tok h; exact searchFromTable_token sql.data tok h
  · intro tok db hsel hs
    refine ⟨?_, ?_, ?_⟩
    · intro m hm
      simp [access97Query, hsel, hs, hm]
    · intro hok
      simp [access97Query, hsel, hs, hok, normalizeAccess97Table]
    · intro cols hok hne
      have hlen : 0 < cols.length := List.length_pos.mpr hne
      simp [access97Query, hsel, hs, hok, normalizeAccess97Table, hlen, pyStr]

/-- A parser database whose table `Tbl` parses to an empty column dict. -/
def emptyTblDB : AccessDB := ⟨["Tbl"], [("Tbl", [])]⟩

/-- Witness for `access97_shape_amended`: `SELECT * FROM Tbl WHERE C=1`
passes both checks, is accepted, queries exactly the extracted token
`Tbl`, and returns the empty row sequence. -/
theorem access97_shape_amended_witness :
    startsWithSelect "SELECT * FROM Tbl WHERE C=1" = true
    ∧ searchFromTable "SELECT * FROM Tbl WHERE C=1".data = some ['T', 'b', 'l']
    ∧ parse_table emptyTblDB (String.mk ['T', 'b', 'l']) = .ok []
    ∧ access97Query (some emptyTblDB) "SELECT * FROM Tbl WHERE C=1" = .ok []
    ∧ (['T', 'b', 'l'] ≠ [] ∧ ∀ c ∈ ['T', 'b', 'l'], tableNameChar c = true) :=
  ⟨rfl, rfl, rfl,
    ((access97_shape_amended (some emptyTblDB) "SELECT * FROM Tbl WHERE C=1").2.2.2
      ['T', 'b', 'l'] emptyTblDB rfl rfl).2.1 rfl,
    (access97_shape_amended (some emptyTblDB) "SELECT * FROM Tbl WHERE C=1").2.2.1
      ['T', 'b', 'l'] rfl⟩

end AccessMDB
